import Mathlib

/-!
Verification development for the AI Estimator Tool for Intervention.

This file gives a shallow embedding, in Lean 4, of the core analysis
pipeline of the repository:

* `app/services/ai_service.py` — pattern-driven intervention extraction
  (keyword triggers, quantity/chainage/specification regexes,
  classification, confidence scoring, deduplication);
* `app/services/rag_service.py` — standards retrieval ranking;
* `app/services/pricing_service.py` — tiered price resolution with a
  volatile (Redis) cache, a durable (database) cache, a reference
  material table, stubbed external sources and a generic fallback;
* `app/services/analysis_service.py` — the orchestrator
  (`process_document`), including its database-session behaviour
  (add / flush / commit / rollback), material derivation and cost
  accumulation.

Python floats are embedded as rationals (`ℚ`), timestamps as naturals,
fallible external collaborators (text extraction, the vector index,
report rendering) as explicit parameters, and the SQLAlchemy session as
a pair of stores (committed snapshot + current in-session state), with
`commit` publishing the current state and `rollback` restoring the
committed snapshot.

The concrete regular expressions of the source are hand-compiled into
deterministic character-list matchers; `re.findall`'s left-to-right,
non-overlapping scan is modelled by `findallAux`.
-/

/-! ## Basic character and string utilities -/

/-- Python's `\s` class (whitespace), as used by the source regexes. -/
def pyIsSpace (c : Char) : Bool :=
  c = ' ' || c = '\t' || c = '\n' || c = '\r' || c = '\x0b' || c = '\x0c'

/-- Lower-casing of a character (ASCII, as the source text is ASCII). -/
def lcChar (c : Char) : Char := c.toLower

/-- Python `str.lower()` on a character list. -/
def lcList (cs : List Char) : List Char := cs.map lcChar

/-- Python `str.lower()`. -/
def pyLower (s : String) : String := (lcList s.toList).asString

/-- Python `str.strip()` on a character list: drop whitespace at both ends. -/
def stripChars (cs : List Char) : List Char :=
  ((cs.dropWhile pyIsSpace).reverse.dropWhile pyIsSpace).reverse

/-- Python `str.strip()`. -/
def pyStrip (s : String) : String := (stripChars s.toList).asString

/-- `needle` starts `hay` (auxiliary for substring containment). -/
def leadsWith : List Char → List Char → Bool
  | [], _ => true
  | _ :: _, [] => false
  | p :: ps, c :: cs => p = c && leadsWith ps cs

/-- `needle` occurs contiguously somewhere in `hay` (Python `needle in hay`). -/
def containsSub : List Char → List Char → Bool
  | [], needle => needle.isEmpty
  | c :: cs, needle => leadsWith needle (c :: cs) || containsSub cs needle

/-- Python `needle in hay` for strings. -/
def pyContains (hay needle : String) : Bool :=
  containsSub hay.toList needle.toList

/-- Number of whitespace-separated words (Python `len(s.split())`). -/
def wordCountAux : List Char → Bool → Nat
  | [], _ => 0
  | c :: cs, inWord =>
    if pyIsSpace c then wordCountAux cs false
    else (if inWord then 0 else 1) + wordCountAux cs true

/-- Python `len(sentence.split())`. -/
def wordCount (s : String) : Nat := wordCountAux s.toList false

/-- Value of a list of decimal digit characters. -/
def digitsToNat (cs : List Char) : Nat :=
  cs.foldl (fun n c => 10 * n + (c.toNat - ('0').toNat)) 0

/-- Python `float(...)` on the decimal strings captured by the source
regexes (`\d+(?:\.\d+)?`), embedded exactly as a rational. -/
def parseDec (s : String) : ℚ :=
  match s.toList.span (fun c => c ≠ '.') with
  | (ds, []) => (digitsToNat ds : ℚ)
  | (ds, _ :: fs) => (digitsToNat ds : ℚ) + (digitsToNat fs : ℚ) / ((10 : ℚ) ^ fs.length)

/-! ## Hand-compiled regex machinery

Each concrete pattern of the source is compiled to a matcher
`List Char → Option (captures × Nat)` returning the captured groups and
the number of characters consumed.  `findallAux` reproduces
`re.findall`'s left-to-right non-overlapping scan (all the source
patterns consume at least one character on success). -/

/-- `re.findall` scan: try the matcher at every position left to right,
skipping past each match. Fuel is the remaining text length. -/
def findallAux {α : Type} (m : List Char → Option (α × Nat)) :
    Nat → List Char → List α
  | 0, _ => []
  | _ + 1, [] => []
  | fuel + 1, c :: cs =>
    match m (c :: cs) with
    | some (a, k) => a :: findallAux m fuel ((c :: cs).drop (max k 1))
    | none => findallAux m fuel cs

/-- `re.findall(pattern, s)` for a compiled matcher. -/
def findall {α : Type} (m : List Char → Option (α × Nat)) (s : String) : List α :=
  findallAux m s.toList.length s.toList

/-- Case-insensitive literal match (the source compiles with
`re.IGNORECASE`); returns the matched input characters and the rest. -/
def matchLitCI : List Char → List Char → Option (List Char × List Char)
  | [], cs => some ([], cs)
  | _ :: _, [] => none
  | l :: ls, c :: cs =>
    if lcChar l = lcChar c then
      match matchLitCI ls cs with
      | some (m, rest) => some (c :: m, rest)
      | none => none
    else none

/-- Token of a compiled alternation branch: a case-insensitive literal,
an optional single character (greedy, as in `s?` / `\.?`), or `\s*`. -/
inductive RTok : Type
  | lit (cs : List Char)
  | optChar (c : Char)
  | spaces0
deriving DecidableEq

/-- Match a token sequence, returning matched input characters and rest.
Greedy without backtracking, which is faithful for the source's
alternatives (nothing follows an optional token that it could steal). -/
def matchToks : List RTok → List Char → Option (List Char × List Char)
  | [], cs => some ([], cs)
  | RTok.lit l :: ts, cs =>
    match matchLitCI l cs with
    | some (m, rest) =>
      match matchToks ts rest with
      | some (m2, r2) => some (m ++ m2, r2)
      | none => none
    | none => none
  | RTok.optChar oc :: ts, cs =>
    match cs with
    | c :: rest =>
      if lcChar oc = lcChar c then
        match matchToks ts rest with
        | some (m2, r2) => some (c :: m2, r2)
        | none => none
      else matchToks ts cs
    | [] => matchToks ts cs
  | RTok.spaces0 :: ts, cs =>
    let (sp, rest) := cs.span pyIsSpace
    match matchToks ts rest with
    | some (m2, r2) => some (sp ++ m2, r2)
    | none => none

/-- First-match alternation (Python regex alternation is leftmost). -/
def matchAlt (alts : List (List RTok)) (cs : List Char) :
    Option (List Char × List Char) :=
  match alts with
  | [] => none
  | a :: rest =>
    match matchToks a cs with
    | some r => some r
    | none => matchAlt rest cs

/-- `\d+(?:\.\d+)?`: greedy digits with optional fraction.  Greediness
without backtracking is faithful: in every source pattern the number is
followed by `\s*` or a letter alternation, which cannot match a digit
or a dot given up by backtracking. -/
def parseNumberTok (cs : List Char) : Option (List Char × List Char) :=
  let (ds, rest) := cs.span Char.isDigit
  if ds.isEmpty then none
  else
    match rest with
    | '.' :: r2 =>
      let (fs, rest2) := r2.span Char.isDigit
      if fs.isEmpty then some (ds, rest) else some (ds ++ '.' :: fs, rest2)
    | _ => some (ds, rest)

/-! ## Quantity patterns (`AIService.quantity_patterns`) -/

/-- Unit alternation of quantity pattern 1, in source order:
`km|kilometer|metre|meter|m|sqm|square\s*meter|cubic\s*meter|cum|ton|tonne|nos?\.?|number|unit|set`. -/
def units1 : List (List RTok) :=
  [[RTok.lit (("km").toList)],
   [RTok.lit (("kilometer").toList)],
   [RTok.lit (("metre").toList)],
   [RTok.lit (("meter").toList)],
   [RTok.lit (("m").toList)],
   [RTok.lit (("sqm").toList)],
   [RTok.lit (("square").toList), RTok.spaces0, RTok.lit (("meter").toList)],
   [RTok.lit (("cubic").toList), RTok.spaces0, RTok.lit (("meter").toList)],
   [RTok.lit (("cum").toList)],
   [RTok.lit (("ton").toList)],
   [RTok.lit (("tonne").toList)],
   [RTok.lit (("no").toList), RTok.optChar 's', RTok.optChar '.'],
   [RTok.lit (("number").toList)],
   [RTok.lit (("unit").toList)],
   [RTok.lit (("set").toList)]]

/-- Unit alternation `m|meter|metre` (patterns 2, 4, 5). -/
def unitsM : List (List RTok) :=
  [[RTok.lit (("m").toList)],
   [RTok.lit (("meter").toList)],
   [RTok.lit (("metre").toList)]]

/-- Unit alternation `m|meter|metre|km` (pattern 3, `length`). -/
def unitsMKm : List (List RTok) := unitsM ++ [[RTok.lit (("km").toList)]]

/-- Unit alternation `sqm|square\s*meter` (pattern 6, `area`). -/
def unitsSqm : List (List RTok) :=
  [[RTok.lit (("sqm").toList)],
   [RTok.lit (("square").toList), RTok.spaces0, RTok.lit (("meter").toList)]]

/-- Unit alternation `cum|cubic\s*meter` (pattern 7, `volume`). -/
def unitsCum : List (List RTok) :=
  [[RTok.lit (("cum").toList)],
   [RTok.lit (("cubic").toList), RTok.spaces0, RTok.lit (("meter").toList)]]

/-- Pattern 1: `(\d+(?:\.\d+)?)\s*(<units1>)`. -/
def matchQty1At (cs : List Char) : Option ((String × String) × Nat) :=
  match parseNumberTok cs with
  | none => none
  | some (num, rest) =>
    let rest2 := rest.dropWhile pyIsSpace
    match matchAlt units1 rest2 with
    | none => none
    | some (u, rest3) => some ((num.asString, u.asString), cs.length - rest3.length)

/-- Pattern 2: `(\d+(?:\.\d+)?)\s*x\s*(\d+(?:\.\d+)?)\s*(m|meter|metre)`. -/
def matchQty2At (cs : List Char) : Option ((String × String × String) × Nat) :=
  match parseNumberTok cs with
  | none => none
  | some (n1, r1) =>
    match r1.dropWhile pyIsSpace with
    | [] => none
    | x :: r3 =>
      if lcChar x = 'x' then
        match parseNumberTok (r3.dropWhile pyIsSpace) with
        | none => none
        | some (n2, r5) =>
          match matchAlt unitsM (r5.dropWhile pyIsSpace) with
          | none => none
          | some (u, r7) =>
            some ((n1.asString, n2.asString, u.asString), cs.length - r7.length)
      else none

/-- Patterns 3–7 share the shape `label[:\s]+(\d+(?:\.\d+)?)\s*(<units>)`
(also the thickness/diameter/height/width specification patterns). -/
def matchLabeledAt (label : List Char) (alts : List (List RTok)) (cs : List Char) :
    Option ((String × String) × Nat) :=
  match matchLitCI label cs with
  | none => none
  | some (_, rest) =>
    let (sep, r2) := rest.span (fun c => c = ':' || pyIsSpace c)
    if sep.isEmpty then none
    else
      match parseNumberTok r2 with
      | none => none
      | some (num, r3) =>
        match matchAlt alts (r3.dropWhile pyIsSpace) with
        | none => none
        | some (u, r5) => some ((num.asString, u.asString), cs.length - r5.length)

/-- An extracted quantity (`AIService._extract_quantities` result dict). -/
structure Quantity where
  value : ℚ
  unit : String
  raw_text : String
  dimensions : Option (List ℚ)
deriving DecidableEq

/-- Build a quantity from a two-group match (`value, unit = match`). -/
def mkQty1 (p : String × String) : Quantity :=
  { value := parseDec p.1
    unit := pyStrip (pyLower p.2)
    raw_text := p.1 ++ " " ++ p.2
    dimensions := none }

/-- Build a quantity from a three-group match (`val1, val2, unit = match`),
e.g. `10 x 20 m`: the value is the product and both operands are recorded. -/
def mkQty2 (p : String × String × String) : Quantity :=
  { value := parseDec p.1 * parseDec p.2.1
    unit := pyStrip (pyLower p.2.2)
    raw_text := p.1 ++ " x " ++ p.2.1 ++ " " ++ p.2.2
    dimensions := some [parseDec p.1, parseDec p.2.1] }

/-- `AIService._extract_quantities`: run the fixed ordered pattern list
over the text, appending parsed quantities per pattern. -/
def extract_quantities (text : String) : List Quantity :=
  ((findall matchQty1At text).map mkQty1)
  ++ ((findall matchQty2At text).map mkQty2)
  ++ ((findall (matchLabeledAt (("length").toList) unitsMKm) text).map mkQty1)
  ++ ((findall (matchLabeledAt (("width").toList) unitsM) text).map mkQty1)
  ++ ((findall (matchLabeledAt (("height").toList) unitsM) text).map mkQty1)
  ++ ((findall (matchLabeledAt (("area").toList) unitsSqm) text).map mkQty1)
  ++ ((findall (matchLabeledAt (("volume").toList) unitsCum) text).map mkQty1)

/-! ## Chainage extraction -/

/-- Markers `(?:km|chainage|ch\.?)` in source order. -/
def chainageMarkers : List (List RTok) :=
  [[RTok.lit (("km").toList)],
   [RTok.lit (("chainage").toList)],
   [RTok.lit (("ch").toList), RTok.optChar '.']]

/-- `(?:km|chainage|ch\.?)[:\s]*(\d+(?:\.\d+)?)[+\s]*(\d+)?`; the second
group is the empty string when absent, as in `re.findall`. -/
def matchChainageAt (cs : List Char) : Option ((String × String) × Nat) :=
  match matchAlt chainageMarkers cs with
  | none => none
  | some (_, r1) =>
    match parseNumberTok (r1.dropWhile (fun c => c = ':' || pyIsSpace c)) with
    | none => none
    | some (km, r3) =>
      let r4 := r3.dropWhile (fun c => c = '+' || pyIsSpace c)
      let (plus, r5) := r4.span Char.isDigit
      some ((km.asString, plus.asString), cs.length - r5.length)

/-- Chainage string of a sentence: first match over the lower-cased
sentence, rendered `Km {km}` plus `+{plus}` when the sub-offset matched. -/
def chainageOf (sentence : String) : Option String :=
  match findall matchChainageAt (pyLower sentence) with
  | [] => none
  | (km, plus) :: _ =>
    some (("Km ") ++ km ++ (if plus = "" then "" else ("+") ++ plus))

/-! ## Specification extraction (`AIService._extract_specifications`) -/

/-- Descending list `[n, n-1, ..., 1]` of separator lengths to try
(the greedy `\s+` / `[:\s]+` backtracks from longest to shortest). -/
def descRange : Nat → List Nat
  | 0 => []
  | n + 1 => (n + 1) :: descRange n

/-- Lazy capture `([...]+?)` followed by a delimiter `(?:\s|,|\.)`:
shortest non-empty class prefix whose next character is a delimiter. -/
def lazyCapture (inClass isDelim : Char → Bool) : List Char → Option (List Char × List Char)
  | [] => none
  | c :: cs =>
    if inClass c then
      match cs with
      | [] => none
      | d :: ds =>
        if isDelim d then some ([c], ds)
        else
          match lazyCapture inClass isDelim cs with
          | some (p, r) => some (c :: p, r)
          | none => none
    else none

/-- Try each separator length (longest first) before the lazy capture. -/
def trySeps (inClass isDelim : Char → Bool) (rest : List Char) :
    List Nat → Option (List Char × List Char)
  | [] => none
  | k :: ks =>
    match lazyCapture inClass isDelim (rest.drop k) with
    | some r => some r
    | none => trySeps inClass isDelim rest ks

/-- Shared shape of the `material` and `type` specification patterns:
marker(s), a non-empty greedy separator run, a lazy class capture, then
a delimiter. -/
def matchLazySpecAt (markers : List (List RTok)) (sepClass inClass isDelim : Char → Bool)
    (cs : List Char) : Option (String × Nat) :=
  match matchAlt markers cs with
  | none => none
  | some (_, rest) =>
    let n := (rest.span sepClass).1.length
    if n = 0 then none
    else
      match trySeps inClass isDelim rest (descRange n) with
      | none => none
      | some (cap, r2) => some (cap.asString, cs.length - r2.length)

/-- Delimiter class `(?:\s|,|\.)`. -/
def specDelim (c : Char) : Bool := pyIsSpace c || c = ',' || c = '.'

/-- `(?:made of|material|using)\s+([a-zA-Z\s]+?)(?:\s|,|\.)`. -/
def matchMaterialSpecAt (cs : List Char) : Option (String × Nat) :=
  matchLazySpecAt
    [[RTok.lit (("made of").toList)],
     [RTok.lit (("material").toList)],
     [RTok.lit (("using").toList)]]
    pyIsSpace (fun c => c.isAlpha || pyIsSpace c) specDelim cs

/-- `type[:\s]+([A-Z0-9\s]+?)(?:\s|,|\.)` (with `re.IGNORECASE`). -/
def matchTypeSpecAt (cs : List Char) : Option (String × Nat) :=
  matchLazySpecAt [[RTok.lit (("type").toList)]]
    (fun c => c = ':' || pyIsSpace c) (fun c => c.isAlphanum || pyIsSpace c) specDelim cs

/-- `label[:\s]+([A-Z0-9]+)` (with `re.IGNORECASE`): `grade` / `class`. -/
def matchKeyAlnumAt (label : List Char) (cs : List Char) : Option (String × Nat) :=
  match matchLitCI label cs with
  | none => none
  | some (_, rest) =>
    let (sep, r2) := rest.span (fun c => c = ':' || pyIsSpace c)
    if sep.isEmpty then none
    else
      let (cap, r3) := r2.span Char.isAlphanum
      if cap.isEmpty then none else some (cap.asString, cs.length - r3.length)

/-- Unit alternation `mm|cm|m` of the dimension specification patterns. -/
def unitsMm : List (List RTok) :=
  [[RTok.lit (("mm").toList)],
   [RTok.lit (("cm").toList)],
   [RTok.lit (("m").toList)]]

/-- First match of a single-group pattern becomes `matches[0].strip()`. -/
def specEntry1 (name : String) (ms : List String) : Option (String × String) :=
  match ms with
  | [] => none
  | m :: _ => some (name, pyStrip m)

/-- First match of a two-group pattern becomes `' '.join(matches[0])`. -/
def specEntry2 (name : String) (ms : List (String × String)) : Option (String × String) :=
  match ms with
  | [] => none
  | (a, b) :: _ => some (name, a ++ " " ++ b)

/-- `AIService._extract_specifications`: each satisfied pattern
contributes one key, in the source's fixed pattern order. -/
def extract_specifications (text : String) : List (String × String) :=
  [specEntry1 ("material") (findall matchMaterialSpecAt text),
   specEntry1 ("grade") (findall (matchKeyAlnumAt (("grade").toList)) text),
   specEntry1 ("class") (findall (matchKeyAlnumAt (("class").toList)) text),
   specEntry1 ("type") (findall matchTypeSpecAt text),
   specEntry2 ("thickness") (findall (matchLabeledAt (("thickness").toList) unitsMm) text),
   specEntry2 ("diameter") (findall (matchLabeledAt (("diameter").toList) unitsMm) text),
   specEntry2 ("height") (findall (matchLabeledAt (("height").toList) unitsMm) text),
   specEntry2 ("width") (findall (matchLabeledAt (("width").toList) unitsMm) text)].reduceOption

/-! ## Classification, confidence, candidates (`AIService`) -/

/-- `AIService.intervention_keywords`. -/
def intervention_keywords : List String :=
  ["guardrail", "crash barrier", "rumble strip", "speed bump", "traffic sign",
   "road marking", "pedestrian crossing", "footpath", "footway", "sidewalk",
   "street light", "road light", "illumination", "delineator", "chevron",
   "road hump", "speed table", "roundabout", "junction improvement",
   "median", "divider", "kerb", "pavement", "shoulder", "verge",
   "drainage", "culvert", "catch pit", "gutter", "safety barrier",
   "parapet", "railing", "fence", "cattle guard", "road stud", "cat eye",
   "reflector", "signage", "information board", "milestone", "km stone",
   "warning sign", "mandatory sign", "regulatory sign", "guide sign"]

/-- The ordered category → keyword table of
`AIService._classify_intervention_type`. -/
def categoriesTable : List (String × List String) :=
  [("Safety Barrier", ["guardrail", "crash barrier", "safety barrier", "parapet", "railing"]),
   ("Traffic Calming", ["rumble strip", "speed bump", "road hump", "speed table"]),
   ("Signage", ["traffic sign", "signage", "warning sign", "mandatory sign", "guide sign", "information board"]),
   ("Road Marking", ["road marking", "pavement marking", "line marking"]),
   ("Pedestrian Facility", ["pedestrian crossing", "footpath", "footway", "sidewalk", "zebra crossing"]),
   ("Illumination", ["street light", "road light", "illumination", "lighting"]),
   ("Delineation", ["delineator", "chevron", "road stud", "cat eye", "reflector"]),
   ("Drainage", ["drainage", "culvert", "catch pit", "gutter"]),
   ("Junction Improvement", ["roundabout", "junction", "intersection"]),
   ("Road Furniture", ["milestone", "km stone", "cattle guard"])]

/-- First matching category wins, else the generic default. -/
def classifyAux : List (String × List String) → String → String
  | [], _ => "General Safety Intervention"
  | (cat, kws) :: rest, lowtext =>
    if kws.any (fun kw => pyContains lowtext kw) then cat else classifyAux rest lowtext

/-- `AIService._classify_intervention_type` (the `keywords` argument is
unused by the source as well). -/
def classify_intervention_type (text : String) (_keywords : List String) : String :=
  classifyAux categoriesTable (pyLower text)

/-- `AIService._calculate_confidence`: base 0.5, + min(0.1·keywords, 0.3),
+ 0.2 if any quantity, + 0.1 if the word count is in [10,100], capped at 1. -/
def calculate_confidence (sentence : String) (keywords : List String)
    (quantities : List Quantity) : ℚ :=
  let score : ℚ := 1/2
  let score := score + min ((keywords.length : ℚ) * (1/10)) (3/10)
  let score := score + (if quantities.isEmpty then 0 else 1/5)
  let words := wordCount sentence
  let score := score + (if 10 ≤ words ∧ words ≤ 100 then 1/10 else 0)
  min score 1

/-- An intervention candidate (the dict built by
`AIService._extract_intervention_details`). -/
structure Candidate where
  intervention_type : String
  description : String
  location : Option String
  chainage : Option String
  specifications : List (String × String)
  quantities : List Quantity
  confidence_score : ℚ
  keywords_matched : List String
  extraction_method : String
deriving DecidableEq

/-- `AIService._extract_intervention_details`.  Named-entity recognition
is an external collaborator (spaCy): `ner` returns the location-class
entity texts of a text, in document order. -/
def extract_intervention_details (ner : String → List String) (sentence : String)
    (keywords : List String) (context_sentences : List String) : Candidate :=
  let full_text := if context_sentences.isEmpty then sentence
                   else String.intercalate (" ") context_sentences
  let locations := ner full_text
  let quantities := extract_quantities full_text
  { intervention_type := classify_intervention_type sentence keywords
    description := pyStrip sentence
    location := locations.head?
    chainage := chainageOf sentence
    specifications := extract_specifications full_text
    quantities := quantities
    confidence_score := calculate_confidence sentence keywords quantities
    keywords_matched := keywords
    extraction_method := "hybrid_nlp" }

/-- Deduplication key `(intervention_type, location, chainage)`. -/
def candidateKey (c : Candidate) : String × Option String × Option String :=
  (c.intervention_type, c.location, c.chainage)

/-- The seen-set fold of `AIService._merge_similar_interventions`. -/
def mergeAux : List (String × Option String × Option String) → List Candidate → List Candidate
  | _, [] => []
  | seen, c :: rest =>
    if candidateKey c ∈ seen then mergeAux seen rest
    else c :: mergeAux (candidateKey c :: seen) rest

/-- `AIService._merge_similar_interventions`: keep the first candidate
per `(type, location, chainage)` key, dropping later duplicates. -/
def merge_similar_interventions (l : List Candidate) : List Candidate :=
  mergeAux [] l

/-- Context window `sentences[max(0,i-1):min(len(sentences),i+2)]`. -/
def windowAt (sentences : List String) (i : Nat) : List String :=
  (sentences.drop (i - 1)).take (min sentences.length (i + 2) - (i - 1))

/-- `AIService.extract_interventions`, parametrised by the external
sentence segmentation (spaCy `doc.sents`, already stripped) and the NER
collaborator: keyword-triggered sentences produce candidates, which are
then deduplicated. -/
def extract_interventions (ner : String → List String) (sentences : List String) :
    List Candidate :=
  merge_similar_interventions
    (sentences.enum.filterMap (fun p =>
      let matched := intervention_keywords.filter (fun kw => pyContains (pyLower p.2) kw)
      if matched.isEmpty then none
      else some (extract_intervention_details ner p.2 matched (windowAt sentences p.1))))

/-! ## Standards retrieval (`RAGService.find_relevant_standards`) -/

/-- One nearest-neighbour hit of the external vector index
(ChromaDB): its metadata (`code`, optional `clause`) and distance. -/
structure QueryHit where
  code : Option String
  clause : Option String
  distance : ℚ
deriving DecidableEq

/-- A ranked retrieval result (the dict built by the source). -/
structure StandardResult where
  code : String
  title : String
  description : String
  relevance_score : ℚ
  matched_clause : Option String
deriving DecidableEq

/-- `RAGService.irc_standards_db` restricted to the fields read by
`find_relevant_standards` (`title`, `description` per code). -/
def irc_standards_db : List (String × String × String) :=
  [("IRC 35", "Code of Practice for Road Markings",
    "Covers specifications for road markings including pavement markings, object markers, delineators, and hazard markers. Specifies materials, colors, dimensions, and retroreflectivity requirements."),
   ("IRC 67", "Code of Practice for Road Signs",
    "Guidelines for design, placement, and specifications of road traffic signs including regulatory, warning, and informatory signs. Covers materials, reflectivity, and mounting requirements."),
   ("IRC 99", "Tentative Guidelines on the Provision of Facilities for Pedestrians",
    "Guidelines for pedestrian infrastructure including footpaths, crossings, overpasses, underpasses, and pedestrian safety measures."),
   ("IRC SP:84", "Manual for Road Safety Audits",
    "Comprehensive manual for conducting road safety audits at all stages of road projects. Covers audit procedures, safety checkpoints, and intervention recommendations."),
   ("IRC SP:87", "Manual of Specifications and Standards for Four Laning of Highways",
    "Standards for widening and upgrading highways to four lanes, including safety features, barriers, medians, and auxiliary facilities."),
   ("IRC 19", "Geometric Design Standards for Rural (Non-Urban) Highways",
    "Standards for geometric design including alignment, cross-section, sight distance, and safety features for rural highways."),
   ("IRC 103", "Guidelines for Pedestrian Facilities",
    "Detailed guidelines for providing safe pedestrian facilities including walkways, crossings, and grade-separated facilities."),
   ("IRC 11", "Recommended Practice for the Design of At-Grade Extra-Urban Intersections",
    "Design guidelines for intersections including channelization, traffic islands, and safety measures.")]

/-- `self.irc_standards_db.get(code, {})`. -/
def lookupStd (db : List (String × String × String)) (code : String) : String × String :=
  match db.find? (fun e => e.1 = code) with
  | some e => (e.2.1, e.2.2)
  | none => ("", "")

/-- Result dict for one kept hit: relevance is `1.0 - min(distance, 1.0)`. -/
def mkStdResult (db : List (String × String × String)) (code : String) (h : QueryHit) :
    StandardResult :=
  { code := code
    title := (lookupStd db code).1
    description := (lookupStd db code).2
    relevance_score := 1 - min h.distance 1
    matched_clause := h.clause }

/-- The result loop: skip hits without a code or with a seen code, keep
the first hit of each distinct code in rank order, and break once
`top_k` results are collected (`count` is the number collected so far). -/
def processHits (db : List (String × String × String)) (top_k : Nat) (seen : List String)
    (count : Nat) : List QueryHit → List StandardResult
  | [] => []
  | h :: rest =>
    match h.code with
    | none => processHits db top_k seen count rest
    | some code =>
      if code ∈ seen then processHits db top_k seen count rest
      else
        let r := mkStdResult db code h
        if top_k ≤ count + 1 then [r]
        else r :: processHits db top_k (code :: seen) (count + 1) rest

/-- `RAGService.find_relevant_standards`.  The vector index is an
external collaborator: `queryIndex q n` returns the hits for query `q`
with `n_results = n`, or an error; any error degrades to `[]`. -/
def find_relevant_standards (queryIndex : String → Nat → Except String (List QueryHit))
    (intervention : Candidate) (top_k : Nat) : List StandardResult :=
  let query_parts := [intervention.intervention_type, intervention.description,
                      String.intercalate (" ") intervention.keywords_matched]
  let query := pyStrip (String.intercalate (" ") (query_parts.filter (fun p => p ≠ "")))
  if query = "" then []
  else
    match queryIndex query (top_k * 2) with
    | Except.error _ => []
    | Except.ok hits => processHits irc_standards_db top_k [] 0 hits

/-! ## Durable store and SQLAlchemy session model

The session is modelled as a committed snapshot plus the current
in-session state: `db.add` / object mutation edit the current state,
`commit` publishes it, `rollback` restores the committed snapshot. -/

/-- `db.models.Analysis` (fields written by the pipeline). -/
structure AnalysisRow where
  document_id : ℕ
  analysis_started_at : ℕ
  analysis_completed_at : Option ℕ
  analysis_duration_seconds : Option ℚ
  total_interventions : Option ℕ
  total_cost : Option ℚ
  assumptions : List String
  warnings : List String
  summary_types : List (String × ℕ)
  report_path : Option String
  report_generated_at : Option ℕ
deriving DecidableEq

/-- `db.models.Intervention` (fields written by the pipeline). -/
structure InterventionRow where
  id : ℕ
  document_id : ℕ
  intervention_type : String
  description : String
  location : Option String
  chainage : Option String
  specifications : List (String × String)
  irc_standards : List String
  irc_clauses : List String
  confidence_score : ℚ
  extraction_method : String
deriving DecidableEq

/-- `db.models.CostItem` (fields written by the pipeline). -/
structure CostItemRow where
  intervention_id : ℕ
  material_name : String
  material_category : Option String
  specification : Option String
  quantity : ℚ
  unit : String
  unit_rate : ℚ
  total_cost : ℚ
  price_source : String
  price_source_reference : String
  price_fetched_at : ℕ
deriving DecidableEq

/-- `db.models.PriceCache` (fields used by the pricing service). -/
structure PriceCacheEntry where
  material_name : String
  unit : String
  unit_rate : ℚ
  source : String
  source_reference : String
  valid_from : ℕ
  valid_until : ℕ
  fetched_at : ℕ
  cache_hits : ℕ
  last_accessed : ℕ
deriving DecidableEq

/-- All durable rows touched by one run (plus the document's
`extracted_text` column). -/
structure Store where
  analyses : List AnalysisRow
  interventions : List InterventionRow
  cost_items : List CostItemRow
  price_cache : List PriceCacheEntry
  extracted_text : Option String
deriving DecidableEq

/-- A SQLAlchemy session: committed snapshot + current in-session state. -/
structure Session where
  committed : Store
  current : Store
deriving DecidableEq

/-- `db.commit()`: publish the current state. -/
def Session.commit (s : Session) : Session := { committed := s.current, current := s.current }

/-- `db.rollback()`: discard uncommitted work. -/
def Session.rollback (s : Session) : Session := { s with current := s.committed }

/-- The dict pickled into Redis by `_cache_price`. -/
structure CachedPrice where
  unit_rate : ℚ
  source : String
  source_reference : String
  fetched_at : ℕ
deriving DecidableEq

/-- Full pricing/orchestration state: the shared session, the volatile
Redis cache (`none` = Redis unavailable, keys are `(material, unit)`,
newest binding first), and the current wall-clock time. -/
structure PState where
  session : Session
  redis : Option (List ((String × String) × CachedPrice))
  now : ℕ
deriving DecidableEq

/-- Apply an edit to the current in-session state. -/
def PState.withCurrent (st : PState) (f : Store → Store) : PState :=
  { st with session := { st.session with current := f st.session.current } }

/-- `self.db.commit()` on the shared session. -/
def PState.commitS (st : PState) : PState := { st with session := st.session.commit }

/-- `self.db.rollback()` on the shared session. -/
def PState.rollbackS (st : PState) : PState := { st with session := st.session.rollback }

/-! ## Pricing resolution (`PricingService`) -/

/-- `PricingService.material_database` entry. -/
structure MaterialInfo where
  category : String
  unit : String
  cpwd_code : String
  gem_category : Option String
  specifications : String
  typical_rate : ℚ
deriving DecidableEq

/-- `PricingService._initialize_material_database`, in source order. -/
def material_database : List (String × MaterialInfo) :=
  [("Steel Crash Barrier",
    { category := "Safety Barrier", unit := "m", cpwd_code := "CPWD-SOR-2023-12.45",
      gem_category := some "Road Safety Equipment",
      specifications := "Galvanized steel W-beam, AASHTO M-180", typical_rate := 1850 }),
   ("Concrete Safety Barrier",
    { category := "Safety Barrier", unit := "m", cpwd_code := "CPWD-SOR-2023-12.46",
      gem_category := none,
      specifications := "RCC Jersey barrier, M30 grade", typical_rate := 2200 }),
   ("Guardrail Post",
    { category := "Safety Barrier", unit := "nos", cpwd_code := "CPWD-SOR-2023-12.47",
      gem_category := none,
      specifications := "MS post, galvanized, 2.5m height", typical_rate := 850 }),
   ("Thermoplastic Paint",
    { category := "Road Marking", unit := "kg", cpwd_code := "CPWD-SOR-2023-18.23",
      gem_category := some "Road Marking Materials",
      specifications := "White/yellow thermoplastic, Type-II", typical_rate := 185 }),
   ("Cold Paint",
    { category := "Road Marking", unit := "ltr", cpwd_code := "CPWD-SOR-2023-18.24",
      gem_category := none,
      specifications := "Chlorinated rubber based paint", typical_rate := 95 }),
   ("Glass Beads",
    { category := "Road Marking", unit := "kg", cpwd_code := "CPWD-SOR-2023-18.25",
      gem_category := none,
      specifications := "Retroreflective glass beads, Type-A", typical_rate := 42 }),
   ("Cat Eye Road Stud",
    { category := "Delineation", unit := "nos", cpwd_code := "CPWD-SOR-2023-18.31",
      gem_category := some "Road Safety Equipment",
      specifications := "Reflective, aluminum body", typical_rate := 125 }),
   ("Solar Road Stud",
    { category := "Delineation", unit := "nos", cpwd_code := "CPWD-SOR-2023-18.32",
      gem_category := none,
      specifications := "LED, solar powered, IP68", typical_rate := 850 }),
   ("Traffic Sign Board",
    { category := "Signage", unit := "sqm", cpwd_code := "CPWD-SOR-2023-18.15",
      gem_category := some "Traffic Signs",
      specifications := "Aluminum sheet, Grade-III retroreflective", typical_rate := 3200 }),
   ("Sign Post",
    { category := "Signage", unit := "nos", cpwd_code := "CPWD-SOR-2023-18.16",
      gem_category := none,
      specifications := "MS square hollow section, galvanized", typical_rate := 1850 }),
   ("Rumble Strip",
    { category := "Traffic Calming", unit := "m", cpwd_code := "CPWD-SOR-2023-18.42",
      gem_category := none,
      specifications := "Thermoplastic or milled asphalt", typical_rate := 450 }),
   ("Speed Hump",
    { category := "Traffic Calming", unit := "nos", cpwd_code := "CPWD-SOR-2023-18.43",
      gem_category := none,
      specifications := "Rubber/plastic, 3.7m x 350mm x 50mm", typical_rate := 4500 }),
   ("Footpath Paving",
    { category := "Pedestrian Facility", unit := "sqm", cpwd_code := "CPWD-SOR-2023-14.35",
      gem_category := none,
      specifications := "Concrete paver blocks, 60mm thick", typical_rate := 425 }),
   ("Tactile Paving",
    { category := "Pedestrian Facility", unit := "sqm", cpwd_code := "CPWD-SOR-2023-14.36",
      gem_category := none,
      specifications := "Warning/directional tiles, vitrified", typical_rate := 850 }),
   ("Pedestrian Railing",
    { category := "Pedestrian Facility", unit := "m", cpwd_code := "CPWD-SOR-2023-12.52",
      gem_category := none,
      specifications := "MS railing, powder coated, 1.1m height", typical_rate := 1250 }),
   ("LED Street Light",
    { category := "Illumination", unit := "nos", cpwd_code := "CPWD-SOR-2023-16.25",
      gem_category := some "LED Street Lights",
      specifications := "150W LED, IP65, 4000K", typical_rate := 12500 }),
   ("Light Pole",
    { category := "Illumination", unit := "nos", cpwd_code := "CPWD-SOR-2023-16.26",
      gem_category := none,
      specifications := "MS octagonal pole, 9m, galvanized", typical_rate := 8500 }),
   ("Flexible Delineator",
    { category := "Delineation", unit := "nos", cpwd_code := "CPWD-SOR-2023-18.35",
      gem_category := none,
      specifications := "PU/rubber, 750mm, retroreflective", typical_rate := 650 }),
   ("Chevron Marker",
    { category := "Delineation", unit := "nos", cpwd_code := "CPWD-SOR-2023-18.36",
      gem_category := none,
      specifications := "Aluminum, Grade-I retroreflective", typical_rate := 1250 })]

/-- `self.material_database.get(material_name)` (exact key lookup). -/
def lookupMaterial (name : String) : Option MaterialInfo :=
  (material_database.find? (fun e => e.1 = name)).map (fun e => e.2)

/-- Resolution-chain steps, for stating consultation order. -/
inductive PEvent : Type
  | fastCache
  | durableCache
  | refTable
  | cpwdSor
  | gemSource
  | fallback
deriving DecidableEq

/-- Redis lookup for key `price:{material}:{unit}`. -/
def redisGet (st : PState) (material unit : String) : Option CachedPrice :=
  match st.redis with
  | none => none
  | some kv => (kv.find? (fun e => e.1 = (material, unit))).map (fun e => e.2)

/-- Valid durable-cache entries for material+unit (`valid_until > now`). -/
def validEntries (entries : List PriceCacheEntry) (material unit : String) (now : ℕ) :
    List PriceCacheEntry :=
  entries.filter (fun e => e.material_name = material && e.unit = unit && now < e.valid_until)

/-- `order_by(fetched_at.desc()).first()`: an entry with maximal
`fetched_at` (leftmost among ties; the tie order of the backend is
unspecified). -/
def mostRecent : List PriceCacheEntry → Option PriceCacheEntry
  | [] => none
  | e :: rest =>
    match mostRecent rest with
    | none => some e
    | some m => if e.fetched_at < m.fetched_at then some m else some e

/-- Increment the hit counter and touch `last_accessed` of the first
occurrence of the selected row. -/
def bumpEntry (entries : List PriceCacheEntry) (sel : PriceCacheEntry) (now : ℕ) :
    List PriceCacheEntry :=
  match entries with
  | [] => []
  | e :: rest =>
    if e = sel then { e with cache_hits := e.cache_hits + 1, last_accessed := now } :: rest
    else e :: bumpEntry rest sel now

/-- `PricingService._get_cached_price`: Redis first, then the durable
cache; a durable hit bumps its counter and commits the shared session.
The event list records which cache layers were consulted. -/
def get_cached_price (st : PState) (material unit : String) :
    Option CachedPrice × PState × List PEvent :=
  let fastEv : List PEvent := if st.redis.isSome then [PEvent.fastCache] else []
  match redisGet st material unit with
  | some c => (some c, st, fastEv)
  | none =>
    let ev := fastEv ++ [PEvent.durableCache]
    match mostRecent (validEntries st.session.current.price_cache material unit st.now) with
    | none => (none, st, ev)
    | some e =>
      let st' := (st.withCurrent (fun cur =>
        { cur with price_cache := bumpEntry cur.price_cache e st.now })).commitS
      (some { unit_rate := e.unit_rate, source := e.source,
              source_reference := e.source_reference, fetched_at := e.fetched_at },
       st', ev)

/-- Data returned by a successful source fetch. -/
structure FetchData where
  unit_rate : ℚ
  source : String
  reference : String
deriving DecidableEq

/-- `PricingService._fetch_from_cpwd_sor`: the API call is commented out
in the source; the body returns `None`. -/
def fetch_from_cpwd_sor (_material _unit : String) : Option FetchData := none

/-- `PricingService._fetch_from_gem`: the API call is commented out in
the source; the body returns `None`. -/
def fetch_from_gem (_material _unit : String) : Option FetchData := none

/-- `PricingService._fetch_price_from_sources`: reference table first,
then CPWD SOR, then GeM; the event list records the consulted steps. -/
def fetch_price_from_sources (material unit : String) : Option FetchData × List PEvent :=
  match lookupMaterial material with
  | some info =>
    (some { unit_rate := info.typical_rate, source := "CPWD_SOR", reference := info.cpwd_code },
     [PEvent.refTable])
  | none =>
    match fetch_from_cpwd_sor material unit with
    | some p => (some p, [PEvent.refTable, PEvent.cpwdSor])
    | none =>
      match fetch_from_gem material unit with
      | some p => (some p, [PEvent.refTable, PEvent.cpwdSor, PEvent.gemSource])
      | none => (none, [PEvent.refTable, PEvent.cpwdSor, PEvent.gemSource])

/-- The result dict of `PricingService.get_material_price` (keys absent
in a branch are modelled as `false`). -/
structure GMPResult where
  material_name : String
  quantity : ℚ
  unit : String
  unit_rate : ℚ
  total_cost : ℚ
  source : String
  source_reference : String
  fetched_at : ℕ
  from_cache : Bool
  is_estimate : Bool
  requires_verification : Bool
deriving DecidableEq

/-- Fuzzy reference-table match: case-insensitive substring containment
in either direction, first entry in table order wins; the result takes
the table's material name. -/
def fuzzyLookup (material : String) : Option (String × MaterialInfo) :=
  material_database.find? (fun e =>
    pyContains (pyLower e.1) (pyLower material) || pyContains (pyLower material) (pyLower e.1))

/-- Fallback result built from a reference-table entry
(`is_estimate=True`, no verification flag). -/
def mkFallback (name : String) (quantity : ℚ) (unit : String) (info : MaterialInfo)
    (now : ℕ) : GMPResult :=
  { material_name := name, quantity := quantity, unit := unit,
    unit_rate := info.typical_rate, total_cost := quantity * info.typical_rate,
    source := "Material_Database", source_reference := info.cpwd_code,
    fetched_at := now, from_cache := false, is_estimate := true,
    requires_verification := false }

/-- `PricingService._get_fallback_price`: exact match, then fuzzy match,
then the generic rate 1000 flagged `is_estimate` and
`requires_verification`. -/
def get_fallback_price (st : PState) (material : String) (quantity : ℚ) (unit : String) :
    GMPResult :=
  match lookupMaterial material with
  | some info => mkFallback material quantity unit info st.now
  | none =>
    match fuzzyLookup material with
    | some e => mkFallback e.1 quantity unit e.2 st.now
    | none =>
      { material_name := material, quantity := quantity, unit := unit,
        unit_rate := 1000, total_cost := quantity * 1000,
        source := "Estimated", source_reference := "Generic Rate (Verification Required)",
        fetched_at := st.now, from_cache := false, is_estimate := true,
        requires_verification := true }

/-- `PricingService._cache_price`: write Redis (newest binding first)
and add a durable cache row, then COMMIT the shared session. -/
def cache_price (st : PState) (material unit : String) (p : FetchData) : PState :=
  let st1 := match st.redis with
    | none => st
    | some kv =>
      { st with redis := some (((material, unit),
          { unit_rate := p.unit_rate, source := p.source,
            source_reference := p.reference, fetched_at := st.now }) :: kv) }
  let entry : PriceCacheEntry :=
    { material_name := material, unit := unit, unit_rate := p.unit_rate,
      source := p.source, source_reference := p.reference,
      valid_from := st.now, valid_until := st.now + 90, fetched_at := st.now,
      cache_hits := 0, last_accessed := st.now }
  (st1.withCurrent (fun cur => { cur with price_cache := cur.price_cache ++ [entry] })).commitS

/-- `PricingService.get_material_price`: cache chain, then sources with
write-back, then fallback; the event list records the consulted steps. -/
def get_material_price (st : PState) (material : String) (quantity : ℚ) (unit : String) :
    GMPResult × PState × List PEvent :=
  match get_cached_price st material unit with
  | (some c, st1, ev) =>
    ({ material_name := material, quantity := quantity, unit := unit,
       unit_rate := c.unit_rate, total_cost := quantity * c.unit_rate,
       source := c.source, source_reference := c.source_reference,
       fetched_at := c.fetched_at, from_cache := true,
       is_estimate := false, requires_verification := false }, st1, ev)
  | (none, st1, ev) =>
    match fetch_price_from_sources material unit with
    | (some p, ev2) =>
      let st2 := cache_price st1 material unit p
      ({ material_name := material, quantity := quantity, unit := unit,
         unit_rate := p.unit_rate, total_cost := quantity * p.unit_rate,
         source := p.source, source_reference := p.reference,
         fetched_at := st1.now, from_cache := false,
         is_estimate := false, requires_verification := false }, st2, ev ++ ev2)
    | (none, ev2) =>
      (get_fallback_price st1 material quantity unit, st1, ev ++ ev2 ++ [PEvent.fallback])

/-! ## Orchestrator (`AnalysisService`) -/

/-- One entry of the fixed intervention-type → material-list table. -/
structure MaterialRule where
  name : String
  unit : String
  ratio : ℚ
deriving DecidableEq

/-- `AnalysisService._identify_materials`' `material_rules` table. -/
def material_rules : List (String × List MaterialRule) :=
  [("Safety Barrier",
    [{ name := "Steel Crash Barrier", unit := "m", ratio := 1 },
     { name := "Guardrail Post", unit := "nos", ratio := 33/100 }]),
   ("Road Marking",
    [{ name := "Thermoplastic Paint", unit := "kg", ratio := 1/2 },
     { name := "Glass Beads", unit := "kg", ratio := 1/10 }]),
   ("Traffic Calming",
    [{ name := "Rumble Strip", unit := "m", ratio := 1 }]),
   ("Signage",
    [{ name := "Traffic Sign Board", unit := "sqm", ratio := 1 },
     { name := "Sign Post", unit := "nos", ratio := 1 }]),
   ("Pedestrian Facility",
    [{ name := "Footpath Paving", unit := "sqm", ratio := 1 },
     { name := "Pedestrian Railing", unit := "m", ratio := 1 }]),
   ("Illumination",
    [{ name := "LED Street Light", unit := "nos", ratio := 1 },
     { name := "Light Pole", unit := "nos", ratio := 1 }]),
   ("Delineation",
    [{ name := "Cat Eye Road Stud", unit := "nos", ratio := 1 },
     { name := "Flexible Delineator", unit := "nos", ratio := 1 }])]

/-- `material_rules.get(intervention_type, [])`. -/
def rulesFor (intervention_type : String) : List MaterialRule :=
  match material_rules.find? (fun e => e.1 = intervention_type) with
  | some e => e.2
  | none => []

/-- A derived material (the dict appended by `_identify_materials`; the
`is_estimate` key is only set in the default-quantity branch). -/
structure MaterialItem where
  name : String
  quantity : ℚ
  unit : String
  category : String
  is_estimate : Bool
deriving DecidableEq

/-- The source's unit-match test:
`qty['unit'] in [rule['unit'], 'm', 'meter', 'metre'] and rule['unit'] in ['m', 'meter']`. -/
def unitMatches (rule : MaterialRule) (q : Quantity) : Bool :=
  (q.unit = rule.unit || q.unit = "m" || q.unit = "meter" || q.unit = "metre")
    && (rule.unit = "m" || rule.unit = "meter")

/-- Per-rule body of the `_identify_materials` loop: first unit-matching
quantity (the inner `for`/`break`), else the first quantity (the
`for`/`else`), else the fixed default quantity 100, flagged as an
estimate.  Each branch appends exactly one material. -/
def materialForRule (intervention_type : String) (quantities : List Quantity)
    (rule : MaterialRule) : MaterialItem :=
  match quantities with
  | [] =>
    { name := rule.name, quantity := 100 * rule.ratio, unit := rule.unit,
      category := intervention_type, is_estimate := true }
  | q0 :: _ =>
    match quantities.find? (fun q => unitMatches rule q) with
    | some q =>
      { name := rule.name, quantity := q.value * rule.ratio, unit := rule.unit,
        category := intervention_type, is_estimate := false }
    | none =>
      { name := rule.name, quantity := q0.value * rule.ratio, unit := rule.unit,
        category := intervention_type, is_estimate := false }

/-- `AnalysisService._identify_materials`: the table's rules for the
type (falling back to one generic rule named after the type), one
material per rule. -/
def identify_materials (data : Candidate) : List MaterialItem :=
  let rules := rulesFor data.intervention_type
  let rules := if rules.isEmpty
    then [{ name := data.intervention_type, unit := "nos", ratio := 1 }]
    else rules
  rules.map (materialForRule data.intervention_type data.quantities)

/-- Cost accumulator of `_calculate_intervention_cost` /
`process_document` (total, assumptions, warnings). -/
structure CostData where
  total_cost : ℚ
  assumptions : List String
  warnings : List String
deriving DecidableEq

/-- Per-material loop of `_calculate_intervention_cost`: resolve the
price (which may commit the shared session), add a CostItem row to the
session, and track estimate/verification flags. -/
def costLoop (iid : ℕ) (st : PState) (acc : CostData) :
    List MaterialItem → CostData × PState
  | [] => (acc, st)
  | mat :: rest =>
    let r := get_material_price st mat.name mat.quantity mat.unit
    let price := r.1
    let item : CostItemRow :=
      { intervention_id := iid, material_name := mat.name,
        material_category := some mat.category, specification := none,
        quantity := mat.quantity, unit := mat.unit,
        unit_rate := price.unit_rate, total_cost := price.total_cost,
        price_source := price.source,
        price_source_reference := price.source_reference,
        price_fetched_at := price.fetched_at }
    let st2 := r.2.1.withCurrent (fun cur => { cur with cost_items := cur.cost_items ++ [item] })
    let acc2 : CostData :=
      { total_cost := acc.total_cost + price.total_cost,
        assumptions := acc.assumptions
          ++ (if price.is_estimate then [("Estimated rate used for ") ++ mat.name] else []),
        warnings := acc.warnings
          ++ (if price.requires_verification then [("Price verification required for ") ++ mat.name] else []) }
    costLoop iid st2 acc2 rest

/-- `AnalysisService._calculate_intervention_cost`: `None` when no
materials were identified (the locally appended assumption is discarded
by the early return), else the accumulated cost data. -/
def calculate_intervention_cost (data : Candidate) (iid : ℕ) (st : PState) :
    Option CostData × PState :=
  let materials := identify_materials data
  if materials.isEmpty then (none, st)
  else
    let r := costLoop iid st { total_cost := 0, assumptions := [], warnings := [] } materials
    (some r.1, r.2)

/-- `AnalysisService._summarize_by_type` (insertion-ordered counts). -/
def bumpType : List (String × ℕ) → String → List (String × ℕ)
  | [], t => [(t, 1)]
  | (k, n) :: rest, t => if k = t then (k, n + 1) :: rest else (k, n) :: bumpType rest t

/-- Count-by-type summary of the surviving candidates. -/
def summarize_by_type (interventions : List Candidate) : List (String × ℕ) :=
  interventions.foldl (fun acc c => bumpType acc c.intervention_type) []

/-- Per-intervention loop of `process_document`: standards retrieval,
Intervention row (id assigned at flush = current row count), cost
calculation, accumulation. -/
def interventionLoop (document_id : ℕ)
    (queryIndex : String → Nat → Except String (List QueryHit))
    (st : PState) (acc : CostData) : List Candidate → CostData × PState
  | [] => (acc, st)
  | data :: rest =>
    let stds := find_relevant_standards queryIndex data 3
    let irc_codes := stds.map (fun s => s.code)
    let irc_clauses := stds.filterMap (fun s =>
      s.matched_clause.map (fun cl => s.code ++ " - Clause " ++ cl))
    let iid := st.session.current.interventions.length
    let row : InterventionRow :=
      { id := iid, document_id := document_id,
        intervention_type := data.intervention_type, description := data.description,
        location := data.location, chainage := data.chainage,
        specifications := data.specifications,
        irc_standards := irc_codes, irc_clauses := irc_clauses,
        confidence_score := data.confidence_score,
        extraction_method := data.extraction_method }
    let st1 := st.withCurrent (fun cur =>
      { cur with interventions := cur.interventions ++ [row] })
    let r := calculate_intervention_cost data iid st1
    let acc2 : CostData :=
      match r.1 with
      | some cd =>
        { total_cost := acc.total_cost + cd.total_cost,
          assumptions := acc.assumptions ++ cd.assumptions,
          warnings := acc.warnings ++ cd.warnings }
      | none => acc
    interventionLoop document_id queryIndex r.2 acc2 rest

/-- Update the run's Analysis row (held by reference in the source;
identified here by its unique `document_id`). -/
def updateAnalysisRows (st : PState) (document_id : ℕ) (f : AnalysisRow → AnalysisRow) :
    PState :=
  st.withCurrent (fun cur =>
    { cur with analyses := cur.analyses.map (fun a =>
        if a.document_id = document_id then f a else a) })

/-- `AnalysisService.process_document`, the whole pipeline for one
document.  External collaborators are parameters: `text` is the
extractor's output, `sentences` the spaCy segmentation of it, `ner` the
location-entity recogniser, `queryIndex` the vector index, `reportGen`
the report renderer's outcome.  Returns the raised error (if any) and
the final state. -/
def process_document (document_id : ℕ) (text : String) (sentences : List String)
    (ner : String → List String)
    (queryIndex : String → Nat → Except String (List QueryHit))
    (reportGen : Except String String) (st0 : PState) :
    Except String Unit × PState :=
  -- create the provisional Analysis record; db.add + db.commit
  let analysis0 : AnalysisRow :=
    { document_id := document_id, analysis_started_at := st0.now,
      analysis_completed_at := none, analysis_duration_seconds := none,
      total_interventions := none, total_cost := none,
      assumptions := [], warnings := [], summary_types := [],
      report_path := none, report_generated_at := none }
  let st1 := (st0.withCurrent (fun cur =>
    { cur with analyses := cur.analyses ++ [analysis0] })).commitS
  -- Step 1: store the extracted text (update_extracted_text commits)
  let st2 := (st1.withCurrent (fun cur => { cur with extracted_text := some text })).commitS
  if (pyStrip text).length < 50 then
    (Except.error "Insufficient text extracted from document", st2.rollbackS)
  else
    -- Step 2: extract interventions
    let interventions := extract_interventions ner sentences
    if interventions.isEmpty then
      (Except.error "No interventions found in document", st2.rollbackS)
    else
      -- Step 3: per-intervention processing
      let r := interventionLoop document_id queryIndex st2
        { total_cost := 0, assumptions := [], warnings := [] } interventions
      let totals := r.1
      -- update the analysis record prior to report generation (pending)
      let st3 := updateAnalysisRows r.2 document_id (fun a =>
        { a with analysis_completed_at := some r.2.now,
                 analysis_duration_seconds := some ((r.2.now - a.analysis_started_at : ℕ) : ℚ),
                 total_interventions := some interventions.length,
                 total_cost := some totals.total_cost,
                 assumptions := totals.assumptions, warnings := totals.warnings,
                 summary_types := summarize_by_type interventions })
      -- Step 5: report generation, then final commit
      match reportGen with
      | Except.error e => (Except.error e, st3.rollbackS)
      | Except.ok path =>
        let st4 := updateAnalysisRows st3 document_id (fun a =>
          { a with report_path := some path, report_generated_at := some st3.now })
        (Except.ok (), st4.commitS)

/-! ## Statement helpers and concrete instances -/

/-- The effective rule list of `_identify_materials`: the table's rules,
or the single generic rule named after the type. -/
def effRules (t : String) : List MaterialRule :=
  if (rulesFor t).isEmpty then [{ name := t, unit := "nos", ratio := 1 }] else rulesFor t

/-- Quantity and estimate flag the CLAIM predicts per rule (C4's words):
ratio against the extracted quantity whose unit equals the rule's unit,
first quantity as fallback, fixed default 100 when none extracted. -/
def claimedQuantityFor (quantities : List Quantity) (rule : MaterialRule) : ℚ :=
  match quantities with
  | [] => 100 * rule.ratio
  | q0 :: _ =>
    match quantities.find? (fun q => q.unit = rule.unit) with
    | some q => q.value * rule.ratio
    | none => q0.value * rule.ratio

/-- Quantity/estimate pair per rule under the amended reading (the
source's unit test `unitMatches`, first-quantity fallback, default 100
flagged on the material only). -/
def amendedQuantityFor (quantities : List Quantity) (rule : MaterialRule) : ℚ × Bool :=
  match quantities with
  | [] => (100 * rule.ratio, true)
  | q0 :: _ =>
    match quantities.find? (fun q => unitMatches rule q) with
    | some q => (q.value * rule.ratio, false)
    | none => (q0.value * rule.ratio, false)

/-- The query string formed by `find_relevant_standards`. -/
def ragQueryString (c : Candidate) : String :=
  pyStrip (String.intercalate (" ")
    (([c.intervention_type, c.description,
       String.intercalate (" ") c.keywords_matched]).filter (fun p => p ≠ "")))

/-- First occurrence of each distinct code, in rank order (statement
helper for the de-duplication of retrieval results). -/
def firstCodes (seen : List String) : List String → List String
  | [] => []
  | c :: rest => if c ∈ seen then firstCodes seen rest else c :: firstCodes (c :: seen) rest

/-- An empty durable store. -/
def emptyStore : Store :=
  { analyses := [], interventions := [], cost_items := [], price_cache := [],
    extracted_text := none }

/-- A pricing/orchestration state over an empty database, no Redis. -/
def emptyState : PState :=
  { session := { committed := emptyStore, current := emptyStore }, redis := none, now := 1000 }

/-- A neutral candidate, for building concrete instances. -/
def baseCandidate : Candidate :=
  { intervention_type := "General Safety Intervention", description := "", location := none,
    chainage := none, specifications := [], quantities := [], confidence_score := 1/2,
    keywords_matched := [], extraction_method := "hybrid_nlp" }

/-- A bare quantity, for building concrete instances. -/
def mkQ (v : ℚ) (u : String) : Quantity :=
  { value := v, unit := u, raw_text := "", dimensions := none }

/-- C1 demonstration: the extracted text / single trigger sentence. -/
def c1Text : String :=
  "A steel crash barrier was installed near the school along the main highway."

/-- C1 demonstration run: one Safety Barrier intervention, reference
table prices (whose cache write-back commits mid-run), then a report
generation failure. -/
def c1Run : Except String Unit × PState :=
  process_document 1 c1Text [c1Text] (fun _ => [])
    (fun _ _ => Except.error "index unavailable")
    (Except.error "Report generation failed") emptyState

/-- C4 counterexample input A: a Safety Barrier with a `sqm` and a `nos`
quantity (the `nos` one matches the Guardrail Post rule's unit). -/
def c4candA : Candidate :=
  { baseCandidate with intervention_type := "Safety Barrier",
                       quantities := [mkQ 10 ("sqm"), mkQ 7 ("nos")] }

/-- C4 counterexample input B: a Safety Barrier with no quantities. -/
def c4candB : Candidate :=
  { baseCandidate with intervention_type := "Safety Barrier" }

/-- C5 witness candidates: two sharing a key, one distinct. -/
def c5a : Candidate :=
  { baseCandidate with intervention_type := "Signage", location := some "NH44" }

/-- Second C5 witness candidate (distinct key). -/
def c5b : Candidate :=
  { baseCandidate with intervention_type := "Drainage" }

/-- Third C5 witness candidate: same key as `c5a`, later in order. -/
def c5a2 : Candidate :=
  { baseCandidate with intervention_type := "Signage", location := some "NH44",
                       description := "later duplicate" }

/-- C5 witness input list. -/
def c5list : List Candidate := [c5a, c5b, c5a2]

/-- C3 witness: two valid durable-cache entries for the same
material+unit with distinct fetch times. -/
def c3e1 : PriceCacheEntry :=
  { material_name := "Thermoplastic Paint", unit := "kg", unit_rate := 180,
    source := "CPWD_SOR", source_reference := "R1", valid_from := 0, valid_until := 200,
    fetched_at := 50, cache_hits := 4, last_accessed := 50 }

/-- C3 witness: the more recently fetched entry. -/
def c3e2 : PriceCacheEntry :=
  { material_name := "Thermoplastic Paint", unit := "kg", unit_rate := 190,
    source := "CPWD_SOR", source_reference := "R2", valid_from := 0, valid_until := 200,
    fetched_at := 60, cache_hits := 2, last_accessed := 60 }

/-- C3 witness state: Redis present but without the key; durable cache
holds both entries. -/
def c3State : PState :=
  { session := { committed := emptyStore,
                 current := { emptyStore with price_cache := [c3e1, c3e2] } },
    redis := some [], now := 100 }

/-- C8 witness candidate (non-empty query). -/
def c8cand : Candidate :=
  { baseCandidate with intervention_type := "Road Marking",
                       description := "road marking works",
                       keywords_matched := ["road marking"] }

/-- C8 witness candidate with an empty query string. -/
def c8candEmpty : Candidate :=
  { baseCandidate with intervention_type := "" }

/-- C8 witness hits: duplicate code, a code-less hit, and more distinct
codes than `top_k`. -/
def c8hits : List QueryHit :=
  [{ code := some "IRC 35", clause := some "4.1", distance := 1/4 },
   { code := some "IRC 35", clause := none, distance := 1/2 },
   { code := none, clause := none, distance := 0 },
   { code := some "IRC 67", clause := none, distance := 3/2 },
   { code := some "IRC SP:87", clause := none, distance := 2 },
   { code := some "IRC 19", clause := none, distance := 1/5 }]

/-- C8 witness index returning the hits for every query. -/
def c8queryOk : String → Nat → Except String (List QueryHit) :=
  fun _ _ => Except.ok c8hits

/-- C8 witness index that always fails. -/
def c8queryErr : String → Nat → Except String (List QueryHit) :=
  fun _ _ => Except.error "boom"

/-! ## Theorems -/

/-- C6: on the input `10 x 20 m`, quantity extraction yields the
two-number quantity with value 200 = 10 × 20, unit `m`, raw text
recording both operands, and dimension pair [10, 20].  (Pattern 1 also
matches the embedded `20 m`, so the full result has two entries.) -/
theorem C6_two_number_quantity_parsing :
    ({ value := 200, unit := "m", raw_text := "10 x 20 m",
       dimensions := some [(10 : ℚ), 20] } : Quantity) ∈ extract_quantities ("10 x 20 m")
  ∧ extract_quantities ("10 x 20 m")
      = [{ value := 20, unit := "m", raw_text := "20 m", dimensions := none },
         { value := 200, unit := "m", raw_text := "10 x 20 m", dimensions := some [10, 20] }] := by
  with_unfolding_all decide

/-- The effective rule list is never empty: either the table's
(non-empty) rules or the single generic rule. -/
theorem effRules_ne_nil (t : String) : effRules t ≠ [] := by
  unfold effRules
  split
  · simp
  · rename_i h
    simpa [List.isEmpty_iff] using h

/-- `_identify_materials` is the per-rule map over the effective rules. -/
theorem identify_materials_eq (data : Candidate) :
    identify_materials data
      = (effRules data.intervention_type).map
          (materialForRule data.intervention_type data.quantities) := rfl

/-- C10: the derived material list is non-empty for every intervention
(unknown types fall back to the generic rule), so the empty-materials
branch of `_calculate_intervention_cost` — which would return `None` —
is unreachable. -/
theorem C10_materials_never_empty :
    (∀ data : Candidate, 0 < (identify_materials data).length)
  ∧ (∀ (data : Candidate) (iid : ℕ) (st : PState),
      ((calculate_intervention_cost data iid st).1).isSome = true) := by
  have h1 : ∀ data : Candidate, identify_materials data ≠ [] := by
    intro data
    rw [identify_materials_eq]
    simpa using effRules_ne_nil data.intervention_type
  refine ⟨fun data => List.length_pos.mpr (h1 data), fun data iid st => ?_⟩
  unfold calculate_intervention_cost
  rw [if_neg]
  · simp
  · simpa [List.isEmpty_iff] using h1 data

/-- Per-rule quantity/estimate pair of the source loop body. -/
theorem materialForRule_pair (t : String) (qs : List Quantity) (r : MaterialRule) :
    ((materialForRule t qs r).quantity, (materialForRule t qs r).is_estimate)
      = amendedQuantityFor qs r := by
  cases qs with
  | nil => simp [materialForRule, amendedQuantityFor]
  | cons q0 rest =>
    rcases h : List.find? (fun q => unitMatches r q) (q0 :: rest) with _ | q <;>
      simp [materialForRule, amendedQuantityFor, h]

/-- Per-rule constant fields of the source loop body. -/
theorem materialForRule_fields (t : String) (qs : List Quantity) (r : MaterialRule) :
    (materialForRule t qs r).name = r.name
  ∧ (materialForRule t qs r).unit = r.unit
  ∧ (materialForRule t qs r).category = t := by
  cases qs with
  | nil => simp [materialForRule]
  | cons q0 rest =>
    rcases h : List.find? (fun q => unitMatches r q) (q0 :: rest) with _ | q <;>
      simp [materialForRule, h]

/-- C4 (amended): materials come from the fixed type → rule table (one
generic rule when the type is absent); per rule, the ratio is applied
against the first quantity passing the source's unit test
(`unitMatches`: only rules with unit `m`/`meter` can match), else the
first extracted quantity, else the fixed default 100 — the last case
flagged `is_estimate` on the material entry itself. -/
theorem C4_material_derivation (data : Candidate) :
    (identify_materials data).map (fun m => m.name)
      = (effRules data.intervention_type).map (fun r => r.name)
  ∧ (identify_materials data).map (fun m => m.unit)
      = (effRules data.intervention_type).map (fun r => r.unit)
  ∧ (identify_materials data).map (fun m => m.category)
      = (effRules data.intervention_type).map (fun _ => data.intervention_type)
  ∧ (identify_materials data).map (fun m => (m.quantity, m.is_estimate))
      = (effRules data.intervention_type).map (amendedQuantityFor data.quantities) := by
  rw [identify_materials_eq]
  refine ⟨?_, ?_, ?_, ?_⟩ <;> rw [List.map_map] <;>
    refine List.map_congr_left (fun r _ => ?_)
  · exact (materialForRule_fields _ _ r).1
  · exact (materialForRule_fields _ _ r).2.1
  · exact (materialForRule_fields _ _ r).2.2
  · exact materialForRule_pair _ _ r

/-- C4 counterexample: for a Safety Barrier with quantities
`[10 sqm, 7 nos]`, the claim predicts the Guardrail Post rule (unit
`nos`, ratio 0.33) is applied to the unit-matching quantity 7 (giving
2.31), but the code's unit test never matches a `nos` rule and falls
back to the first quantity (giving 3.3); and with no quantities at all
the default-quantity materials are flagged, yet the run's cost data
records no material-estimation assumption. -/
theorem C4_counterexample :
    ((identify_materials c4candA).map (fun m => m.quantity) = [10, 33/10])
  ∧ ((effRules ("Safety Barrier")).map (claimedQuantityFor c4candA.quantities)
      = [10, 231/100])
  ∧ ((identify_materials c4candA).map (fun m => m.quantity)
      ≠ (effRules ("Safety Barrier")).map (claimedQuantityFor c4candA.quantities))
  ∧ ((identify_materials c4candB).all (fun m => m.is_estimate) = true)
  ∧ ((calculate_intervention_cost c4candB 0 emptyState).1.map (fun cd => cd.assumptions)
      = some []) := by
  with_unfolding_all decide

/-- C1: a concrete failed run (report generation throws after the
pricing write-backs committed the shared session) ends in an error yet
leaves an Analysis row, an Intervention row and a CostItem row
committed — the mid-run `db.commit()` calls of the pricing service make
the final rollback unable to undo them. -/
theorem C1_failed_run_leaves_partial_commits :
    c1Run.1 = Except.error "Report generation failed"
  ∧ c1Run.2.session.committed.analyses.length = 1
  ∧ c1Run.2.session.committed.interventions.length = 1
  ∧ c1Run.2.session.committed.cost_items.length = 1 := by
  refine ⟨?_, ?_, ?_, ?_⟩ <;> with_unfolding_all rfl

/-- Closed form of the confidence score. -/
theorem calculate_confidence_eq (s : String) (kws : List String) (qs : List Quantity) :
    calculate_confidence s kws qs
      = min (1/2 + min ((kws.length : ℚ) * (1/10)) (3/10)
          + (if qs.isEmpty then 0 else 1/5)
          + (if 10 ≤ wordCount s ∧ wordCount s ≤ 100 then (1/10 : ℚ) else 0)) 1 := rfl

/-- The confidence score never exceeds 1. -/
theorem calculate_confidence_le_one (s : String) (kws : List String) (qs : List Quantity) :
    calculate_confidence s kws qs ≤ 1 := by
  rw [calculate_confidence_eq]
  exact min_le_right _ _

/-- The confidence score never drops below the 0.5 base. -/
theorem calculate_confidence_ge_half (s : String) (kws : List String) (qs : List Quantity) :
    1/2 ≤ calculate_confidence s kws qs := by
  rw [calculate_confidence_eq]
  have hA : (0:ℚ) ≤ min ((kws.length : ℚ) * (1/10)) (3/10) :=
    le_min (by positivity) (by norm_num)
  have hB : (0:ℚ) ≤ (if qs.isEmpty then (0:ℚ) else 1/5) := by split <;> norm_num
  have hC : (0:ℚ) ≤ (if 10 ≤ wordCount s ∧ wordCount s ≤ 100 then (1/10:ℚ) else 0) := by
    split <;> norm_num
  exact le_min (by linarith) (by norm_num)

/-- C7: confidence scoring is monotonic — an extra matched keyword, an
extra quantity, or moving the word count into [10, 100] never decreases
the score — and the score is capped at 1. -/
theorem C7_confidence_monotone_bounded :
    (∀ (s : String) (kws : List String) (qs : List Quantity) (kw : String),
        calculate_confidence s kws qs ≤ calculate_confidence s (kw :: kws) qs)
  ∧ (∀ (s : String) (kws : List String) (qs : List Quantity) (q : Quantity),
        calculate_confidence s kws qs ≤ calculate_confidence s kws (q :: qs))
  ∧ (∀ (s1 s2 : String) (kws : List String) (qs : List Quantity),
        ¬(10 ≤ wordCount s1 ∧ wordCount s1 ≤ 100) →
        (10 ≤ wordCount s2 ∧ wordCount s2 ≤ 100) →
        calculate_confidence s1 kws qs ≤ calculate_confidence s2 kws qs)
  ∧ (∀ (s : String) (kws : List String) (qs : List Quantity),
        calculate_confidence s kws qs ≤ 1) := by
  refine ⟨?_, ?_, ?_, fun s kws qs => calculate_confidence_le_one s kws qs⟩
  · intro s kws qs kw
    rw [calculate_confidence_eq, calculate_confidence_eq]
    refine min_le_min (add_le_add_right (add_le_add_right (add_le_add_left ?_ _) _) _) le_rfl
    refine min_le_min ?_ le_rfl
    have : ((kws.length : ℚ)) ≤ ((kw :: kws).length : ℚ) := by
      push_cast [List.length_cons]; linarith
    nlinarith
  · intro s kws qs q
    rw [calculate_confidence_eq, calculate_confidence_eq]
    refine min_le_min (add_le_add_right (add_le_add_left ?_ _) _) le_rfl
    simp only [List.isEmpty_cons]
    split <;> norm_num
  · intro s1 s2 kws qs h1 h2
    rw [calculate_confidence_eq, calculate_confidence_eq, if_neg h1, if_pos h2]
    refine min_le_min (by linarith) le_rfl

/-- Deduplication output is a sublist of the input (order preserved). -/
theorem mergeAux_sublist (seen : List (String × Option String × Option String))
    (l : List Candidate) : (mergeAux seen l).Sublist l := by
  induction l generalizing seen with
  | nil => simp [mergeAux]
  | cons c rest ih =>
    by_cases h : candidateKey c ∈ seen
    · simp only [mergeAux, if_pos h]
      exact (ih seen).cons c
    · simp only [mergeAux, if_neg h]
      exact (ih _).cons₂ c

/-- Every retained candidate's key was not in the seen set. -/
theorem mem_mergeAux_not_seen (l : List Candidate) :
    ∀ seen y, y ∈ mergeAux seen l → candidateKey y ∉ seen := by
  induction l with
  | nil => intro seen y h; simp [mergeAux] at h
  | cons c rest ih =>
    intro seen y hy
    by_cases h : candidateKey c ∈ seen
    · simp only [mergeAux, if_pos h] at hy
      exact ih seen y hy
    · simp only [mergeAux, if_neg h] at hy
      rcases List.mem_cons.mp hy with rfl | hy'
      · exact h
      · intro hse
        exact ih _ y hy' (List.mem_cons_of_mem _ hse)

/-- Retained keys are pairwise distinct. -/
theorem mergeAux_keys_nodup (l : List Candidate) :
    ∀ seen, ((mergeAux seen l).map candidateKey).Nodup := by
  induction l with
  | nil => intro seen; simp [mergeAux]
  | cons c rest ih =>
    intro seen
    by_cases h : candidateKey c ∈ seen
    · simp only [mergeAux, if_pos h]; exact ih seen
    · simp only [mergeAux, if_neg h, List.map_cons]
      refine List.nodup_cons.mpr ⟨?_, ih _⟩
      intro hmem
      obtain ⟨y, hy, hkey⟩ := List.mem_map.mp hmem
      exact mem_mergeAux_not_seen rest _ y hy (hkey ▸ List.mem_cons_self _ _)

/-- Every input key not already seen is represented in the output. -/
theorem mergeAux_covers (l : List Candidate) :
    ∀ seen x, x ∈ l → candidateKey x ∉ seen →
      ∃ y ∈ mergeAux seen l, candidateKey y = candidateKey x := by
  induction l with
  | nil => intro seen x hx; simp at hx
  | cons c rest ih =>
    intro seen x hx hns
    by_cases h : candidateKey c ∈ seen
    · simp only [mergeAux, if_pos h]
      rcases List.mem_cons.mp hx with rfl | hx'
      · exact absurd h hns
      · exact ih seen x hx' hns
    · simp only [mergeAux, if_neg h]
      by_cases hk : candidateKey x = candidateKey c
      · exact ⟨c, List.mem_cons_self _ _, hk.symm⟩
      · rcases List.mem_cons.mp hx with rfl | hx'
        · exact absurd rfl hk
        · obtain ⟨y, hy, hkey⟩ := ih (candidateKey c :: seen) x hx' (by
            intro hmem
            rcases List.mem_cons.mp hmem with he | hse
            · exact hk he
            · exact hns hse)
          exact ⟨y, List.mem_cons_of_mem _ hy, hkey⟩

/-- Every retained candidate is the first of its key in the input. -/
theorem mergeAux_first (l : List Candidate) :
    ∀ seen y, y ∈ mergeAux seen l →
      l.find? (fun z => decide (candidateKey z = candidateKey y)) = some y := by
  induction l with
  | nil => intro seen y h; simp [mergeAux] at h
  | cons c rest ih =>
    intro seen y hy
    by_cases h : candidateKey c ∈ seen
    · simp only [mergeAux, if_pos h] at hy
      have hne : candidateKey c ≠ candidateKey y := by
        intro he
        exact mem_mergeAux_not_seen rest seen y hy (he ▸ h)
      rw [List.find?_cons_of_neg _ (by simpa using hne), ih seen y hy]
    · simp only [mergeAux, if_neg h] at hy
      rcases List.mem_cons.mp hy with rfl | hy'
      · rw [List.find?_cons_of_pos _ (by simp)]
      · have hne : candidateKey c ≠ candidateKey y := by
          intro he
          exact mem_mergeAux_not_seen rest _ y hy' (he ▸ List.mem_cons_self _ _)
        rw [List.find?_cons_of_neg _ (by simpa using hne), ih _ y hy']

/-- C5: deduplication retains, for each `(type, location, chainage)`
key, exactly the first candidate in sentence order carrying it, and
keeps all retained candidates in their original order. -/
theorem C5_dedup (l : List Candidate) :
    (merge_similar_interventions l).Sublist l
  ∧ ((merge_similar_interventions l).map candidateKey).Nodup
  ∧ (∀ x ∈ l, ∃ y ∈ merge_similar_interventions l, candidateKey y = candidateKey x)
  ∧ (∀ y ∈ merge_similar_interventions l,
      l.find? (fun z => decide (candidateKey z = candidateKey y)) = some y) := by
  refine ⟨mergeAux_sublist [] l, mergeAux_keys_nodup l [], ?_, ?_⟩
  · intro x hx
    exact mergeAux_covers l [] x hx (by simp)
  · intro y hy
    exact mergeAux_first l [] y hy

/-- C5 witness: on `[c5a, c5b, c5a2]` (first and last share a key), the
retained representative of `c5a`'s key is `c5a` itself, the first in
order, and `c5a2`'s key is still represented. -/
theorem C5_witness :
    List.find? (fun z => decide (candidateKey z = candidateKey c5a)) c5list = some c5a
  ∧ ∃ y ∈ merge_similar_interventions c5list, candidateKey y = candidateKey c5a2 := by
  constructor
  · exact (C5_dedup c5list).2.2.2 c5a (by with_unfolding_all decide)
  · exact (C5_dedup c5list).2.2.1 c5a2 (by with_unfolding_all decide)

/-- C9: every candidate produced by extraction has a confidence score
in [0.5, 1] — scoring starts at the 0.5 base, only adds bonuses, and is
capped by the final `min` with 1. -/
theorem C9_candidate_confidence_bounds (ner : String → List String)
    (sentences : List String) :
    ∀ c ∈ extract_interventions ner sentences,
      1/2 ≤ c.confidence_score ∧ c.confidence_score ≤ 1 := by
  intro c hc
  unfold extract_interventions merge_similar_interventions at hc
  have hs := (mergeAux_sublist [] _).subset hc
  obtain ⟨p, hp, hf⟩ := List.mem_filterMap.mp hs
  dsimp only at hf
  by_cases hm : (intervention_keywords.filter (fun kw => pyContains (pyLower p.2) kw)).isEmpty
  · rw [if_pos hm] at hf
    exact absurd hf (by simp)
  · rw [if_neg hm] at hf
    obtain rfl := Option.some.inj hf
    simp only [extract_intervention_details]
    exact ⟨calculate_confidence_ge_half _ _ _, calculate_confidence_le_one _ _ _⟩

/-- C9 witness: the candidate extracted from the concrete trigger
sentence has its confidence score within [0.5, 1]. -/
theorem C9_witness :
    1/2 ≤ (extract_intervention_details (fun _ => []) c1Text
            ["crash barrier"] [c1Text]).confidence_score
  ∧ (extract_intervention_details (fun _ => []) c1Text
            ["crash barrier"] [c1Text]).confidence_score ≤ 1 :=
  C9_candidate_confidence_bounds (fun _ => []) [c1Text] _ (by with_unfolding_all decide)

/-- C2: price resolution always returns a result whose total cost is
quantity × unit rate, in every branch of the chain; when neither cache,
nor the reference table (exactly or fuzzily), nor the (stubbed)
external sources yield a price, the result carries the generic rate
1000 flagged `is_estimate` and `requires_verification`. -/
theorem C2_fallback_guarantee (st : PState) (material : String) (quantity : ℚ)
    (unit : String) (_hq : 0 < quantity) :
    (get_material_price st material quantity unit).1.total_cost
      = quantity * (get_material_price st material quantity unit).1.unit_rate
  ∧ (redisGet st material unit = none →
     mostRecent (validEntries st.session.current.price_cache material unit st.now) = none →
     lookupMaterial material = none →
     fuzzyLookup material = none →
       (get_material_price st material quantity unit).1.is_estimate = true
     ∧ (get_material_price st material quantity unit).1.requires_verification = true
     ∧ (get_material_price st material quantity unit).1.unit_rate = 1000) := by
  constructor
  · rcases hr : redisGet st material unit with _ | c
    · rcases hm : mostRecent (validEntries st.session.current.price_cache material unit st.now)
        with _ | e
      · rcases hl : lookupMaterial material with _ | info
        · rcases hf : fuzzyLookup material with _ | fz
          · simp [get_material_price, get_cached_price, hr, hm, fetch_price_from_sources, hl,
                  fetch_from_cpwd_sor, fetch_from_gem, get_fallback_price, hf]
          · simp [get_material_price, get_cached_price, hr, hm, fetch_price_from_sources, hl,
                  fetch_from_cpwd_sor, fetch_from_gem, get_fallback_price, hf, mkFallback]
        · simp [get_material_price, get_cached_price, hr, hm, fetch_price_from_sources, hl]
      · simp [get_material_price, get_cached_price, hr, hm]
    · simp [get_material_price, get_cached_price, hr]
  · intro h1 h2 h3 h4
    simp [get_material_price, get_cached_price, h1, h2, fetch_price_from_sources, h3,
          fetch_from_cpwd_sor, fetch_from_gem, get_fallback_price, h4]

/-- C2 witness: for an unknown material over an empty state with
quantity 5, the generic fallback fires with both flags and total
cost 5 × 1000. -/
theorem C2_witness :
    (get_material_price emptyState ("Unobtainium") 5 ("kg")).1.total_cost
      = 5 * (get_material_price emptyState ("Unobtainium") 5 ("kg")).1.unit_rate
  ∧ (get_material_price emptyState ("Unobtainium") 5 ("kg")).1.is_estimate = true
  ∧ (get_material_price emptyState ("Unobtainium") 5 ("kg")).1.requires_verification = true
  ∧ (get_material_price emptyState ("Unobtainium") 5 ("kg")).1.unit_rate = 1000 := by
  have h := C2_fallback_guarantee emptyState ("Unobtainium") 5 ("kg") (by norm_num)
  have h2 := h.2 (by with_unfolding_all decide) (by with_unfolding_all decide)
    (by with_unfolding_all decide) (by with_unfolding_all decide)
  exact ⟨h.1, h2.1, h2.2.1, h2.2.2⟩

/-- A Redis hit implies the Redis client is present. -/
theorem redisGet_isSome (st : PState) (material unit : String) (c : CachedPrice)
    (h : redisGet st material unit = some c) : st.redis.isSome = true := by
  rcases hred : st.redis with _ | kv
  · rw [redisGet, hred] at h
    simp at h
  · simp [hred]

/-- `mostRecent` returns `none` only on the empty list. -/
theorem mostRecent_eq_none (l : List PriceCacheEntry) (h : mostRecent l = none) : l = [] := by
  cases l with
  | nil => rfl
  | cons a rest =>
    rw [mostRecent] at h
    rcases hm : mostRecent rest with _ | m <;> rw [hm] at h <;> simp at h
    split at h <;> simp at h

/-- The selected durable-cache entry is one of the candidates. -/
theorem mostRecent_mem (l : List PriceCacheEntry) :
    ∀ e, mostRecent l = some e → e ∈ l := by
  induction l with
  | nil => intro e h; simp [mostRecent] at h
  | cons a rest ih =>
    intro e h
    rw [mostRecent] at h
    split at h
    · obtain rfl := Option.some.inj h
      exact List.mem_cons_self _ _
    · rename_i m hm
      split at h
      · obtain rfl := Option.some.inj h
        exact List.mem_cons_of_mem _ (ih m hm)
      · obtain rfl := Option.some.inj h
        exact List.mem_cons_self _ _

/-- The selected durable-cache entry has a maximal fetch time. -/
theorem mostRecent_max (l : List PriceCacheEntry) :
    ∀ e, mostRecent l = some e → ∀ x ∈ l, x.fetched_at ≤ e.fetched_at := by
  induction l with
  | nil => intro e h; simp [mostRecent] at h
  | cons a rest ih =>
    intro e h
    rw [mostRecent] at h
    split at h
    · rename_i hm
      obtain rfl := Option.some.inj h
      have : rest = [] := mostRecent_eq_none rest hm
      subst this
      intro x hx
      rw [List.mem_singleton] at hx
      subst hx
      exact le_refl _
    · rename_i m hm
      intro x hx
      rcases List.mem_cons.mp hx with rfl | hx'
      · split at h
        · rename_i hlt
          obtain rfl := Option.some.inj h
          exact le_of_lt hlt
        · obtain rfl := Option.some.inj h
          exact le_refl _
      · split at h
        · rename_i hlt
          obtain rfl := Option.some.inj h
          exact ih m hm x hx'
        · rename_i hnlt
          obtain rfl := Option.some.inj h
          exact le_trans (ih m hm x hx') (le_of_not_lt hnlt)

/-- Bumping the selected row rewrites exactly one position: the hit
counter goes up by one and `last_accessed` is touched. -/
theorem bumpEntry_spec (l : List PriceCacheEntry) (sel : PriceCacheEntry) (now : ℕ)
    (h : sel ∈ l) :
    ∃ i, l[i]? = some sel
      ∧ bumpEntry l sel now
          = l.set i { sel with cache_hits := sel.cache_hits + 1, last_accessed := now } := by
  induction l with
  | nil => simp at h
  | cons a rest ih =>
    by_cases he : a = sel
    · subst he
      refine ⟨0, by simp, ?_⟩
      rw [bumpEntry]
      simp
    · have hsel : sel ∈ rest := by
        rcases List.mem_cons.mp h with rfl | h'
        · exact absurd rfl he
        · exact h'
      obtain ⟨i, hi, hb⟩ := ih hsel
      refine ⟨i + 1, by simpa using hi, ?_⟩
      rw [bumpEntry, if_neg he, hb]
      simp

/-- C3: resolution chain order.  (a) A fast-cache hit is returned
immediately, leaving the state untouched and consulting nothing else.
(b) Otherwise a valid durable-cache hit returns the most recently
fetched valid entry and bumps exactly its hit counter by 1.  (c) Only
when both caches miss is the reference table consulted, and external
sources are attempted only after it. -/
theorem C3_resolution_chain_order (st : PState) (material : String) (quantity : ℚ)
    (unit : String) :
    (∀ c, redisGet st material unit = some c →
        (get_material_price st material quantity unit).1.unit_rate = c.unit_rate
      ∧ (get_material_price st material quantity unit).1.from_cache = true
      ∧ (get_material_price st material quantity unit).2.1 = st
      ∧ (get_material_price st material quantity unit).2.2 = [PEvent.fastCache])
  ∧ (∀ e, redisGet st material unit = none →
        mostRecent (validEntries st.session.current.price_cache material unit st.now)
          = some e →
        (get_material_price st material quantity unit).1.unit_rate = e.unit_rate
      ∧ (get_material_price st material quantity unit).1.from_cache = true
      ∧ e ∈ validEntries st.session.current.price_cache material unit st.now
      ∧ (∀ e' ∈ validEntries st.session.current.price_cache material unit st.now,
           e'.fetched_at ≤ e.fetched_at)
      ∧ (∃ i, st.session.current.price_cache[i]? = some e
           ∧ (get_material_price st material quantity unit).2.1.session.current.price_cache
               = st.session.current.price_cache.set i
                   { e with cache_hits := e.cache_hits + 1, last_accessed := st.now })
      ∧ (get_material_price st material quantity unit).2.2
          = (if st.redis.isSome then [PEvent.fastCache] else []) ++ [PEvent.durableCache])
  ∧ (redisGet st material unit = none →
     mostRecent (validEntries st.session.current.price_cache material unit st.now) = none →
        (get_material_price st material quantity unit).2.2
          = (if st.redis.isSome then [PEvent.fastCache] else [])
            ++ [PEvent.durableCache]
            ++ (match lookupMaterial material with
                | some _ => [PEvent.refTable]
                | none => [PEvent.refTable, PEvent.cpwdSor, PEvent.gemSource,
                           PEvent.fallback])) := by
  refine ⟨?_, ?_, ?_⟩
  · intro c h
    have hs := redisGet_isSome st material unit c h
    simp [get_material_price, get_cached_price, h, hs]
  · intro e h1 h2
    have hmem := mostRecent_mem _ _ h2
    have hmax := mostRecent_max _ _ h2
    have hpc : e ∈ st.session.current.price_cache := by
      have := hmem
      unfold validEntries at this
      exact (List.mem_filter.mp this).1
    obtain ⟨i, hi, hb⟩ := bumpEntry_spec st.session.current.price_cache e st.now hpc
    refine ⟨?_, ?_, hmem, hmax, ⟨i, hi, ?_⟩, ?_⟩
    · simp [get_material_price, get_cached_price, h1, h2]
    · simp [get_material_price, get_cached_price, h1, h2]
    · rw [← hb]
      simp [get_material_price, get_cached_price, h1, h2, PState.withCurrent,
            PState.commitS, Session.commit]
    · simp [get_material_price, get_cached_price, h1, h2]
  · intro h1 h2
    rcases hl : lookupMaterial material with _ | info <;>
      simp [get_material_price, get_cached_price, h1, h2, fetch_price_from_sources, hl,
            fetch_from_cpwd_sor, fetch_from_gem]

/-- C3 witness: over `c3State` (Redis present without the key, two
valid durable entries), resolution returns the more recently fetched
entry `c3e2`, bumps exactly its counter, and consults only the two
cache layers. -/
theorem C3_witness :
    (get_material_price c3State ("Thermoplastic Paint") 4 ("kg")).1.unit_rate = c3e2.unit_rate
  ∧ (get_material_price c3State ("Thermoplastic Paint") 4 ("kg")).1.from_cache = true
  ∧ c3e2 ∈ validEntries c3State.session.current.price_cache ("Thermoplastic Paint") ("kg")
      c3State.now
  ∧ (∀ e' ∈ validEntries c3State.session.current.price_cache ("Thermoplastic Paint") ("kg")
        c3State.now, e'.fetched_at ≤ c3e2.fetched_at)
  ∧ (∃ i, c3State.session.current.price_cache[i]? = some c3e2
       ∧ (get_material_price c3State ("Thermoplastic Paint") 4 ("kg")).2.1.session.current.price_cache
           = c3State.session.current.price_cache.set i
               { c3e2 with cache_hits := c3e2.cache_hits + 1, last_accessed := c3State.now })
  ∧ (get_material_price c3State ("Thermoplastic Paint") 4 ("kg")).2.2
      = (if c3State.redis.isSome then [PEvent.fastCache] else []) ++ [PEvent.durableCache] :=
  (C3_resolution_chain_order c3State ("Thermoplastic Paint") 4 ("kg")).2.1 c3e2
    (by with_unfolding_all decide) (by with_unfolding_all decide)

/-- Unfolding of `find_relevant_standards` over the formed query. -/
theorem find_relevant_standards_eq (qi : String → Nat → Except String (List QueryHit))
    (c : Candidate) (k : Nat) :
    find_relevant_standards qi c k
      = if ragQueryString c = "" then []
        else match qi (ragQueryString c) (k * 2) with
          | Except.error _ => []
          | Except.ok hits => processHits irc_standards_db k [] 0 hits := rfl

/-- The result codes are the first occurrences of distinct codes in
rank order, truncated to the remaining budget. -/
theorem processHits_codes (db : List (String × String × String)) (k : Nat) :
    ∀ (hits : List QueryHit) (seen : List String) (count : Nat), count < k →
      (processHits db k seen count hits).map (fun r => r.code)
        = (firstCodes seen (hits.filterMap (fun h => h.code))).take (k - count) := by
  intro hits
  induction hits with
  | nil => intro seen count _; simp [processHits, firstCodes]
  | cons h rest ih =>
    intro seen count hc
    rcases hcode : h.code with _ | code
    · simp [processHits, hcode, List.filterMap_cons, ih _ _ hc]
    · by_cases hseen : code ∈ seen
      · simp [processHits, hcode, hseen, List.filterMap_cons, firstCodes, ih _ _ hc]
      · by_cases hbreak : k ≤ count + 1
        · have hk : k - count = 1 := by omega
          simp [processHits, hcode, hseen, hbreak, List.filterMap_cons, firstCodes, hk,
                mkStdResult]
        · have h2 : count + 1 < k := by omega
          have hk : k - count = (k - (count + 1)) + 1 := by omega
          simp [processHits, hcode, hseen, hbreak, List.filterMap_cons, firstCodes,
                mkStdResult, ih _ _ h2, hk]

/-- Every retrieval result is built from one of the hits. -/
theorem processHits_mem (db : List (String × String × String)) (k : Nat) :
    ∀ (hits : List QueryHit) (seen : List String) (count : Nat) r,
      r ∈ processHits db k seen count hits →
      ∃ h ∈ hits, ∃ code, h.code = some code ∧ r = mkStdResult db code h := by
  intro hits
  induction hits with
  | nil => intro seen count r hr; simp [processHits] at hr
  | cons h rest ih =>
    intro seen count r hr
    rcases hcode : h.code with _ | code
    · rw [processHits, hcode] at hr
      obtain ⟨h', hh', code, hc, hr'⟩ := ih _ _ r hr
      exact ⟨h', List.mem_cons_of_mem _ hh', code, hc, hr'⟩
    · rw [processHits, hcode] at hr
      dsimp only at hr
      by_cases hseen : code ∈ seen
      · rw [if_pos hseen] at hr
        obtain ⟨h', hh', code', hc, hr'⟩ := ih _ _ r hr
        exact ⟨h', List.mem_cons_of_mem _ hh', code', hc, hr'⟩
      · rw [if_neg hseen] at hr
        by_cases hbreak : k ≤ count + 1
        · rw [if_pos hbreak] at hr
          rw [List.mem_singleton] at hr
          exact ⟨h, List.mem_cons_self _ _, code, hcode, hr⟩
        · rw [if_neg hbreak] at hr
          rcases List.mem_cons.mp hr with rfl | hr'
          · exact ⟨h, List.mem_cons_self _ _, code, hcode, rfl⟩
          · obtain ⟨h', hh', code', hc, hr''⟩ := ih _ _ r hr'
            exact ⟨h', List.mem_cons_of_mem _ hh', code', hc, hr''⟩

/-- Codes kept by `firstCodes` were not previously seen. -/
theorem mem_firstCodes_not_seen (l : List String) :
    ∀ seen c, c ∈ firstCodes seen l → c ∉ seen := by
  induction l with
  | nil => intro seen c h; simp [firstCodes] at h
  | cons a rest ih =>
    intro seen c hc
    by_cases h : a ∈ seen
    · rw [firstCodes, if_pos h] at hc
      exact ih seen c hc
    · rw [firstCodes, if_neg h] at hc
      rcases List.mem_cons.mp hc with rfl | hc'
      · exact h
      · intro hse
        exact ih _ c hc' (List.mem_cons_of_mem _ hse)

/-- `firstCodes` yields pairwise-distinct codes. -/
theorem firstCodes_nodup (l : List String) : ∀ seen, (firstCodes seen l).Nodup := by
  induction l with
  | nil => intro seen; simp [firstCodes]
  | cons a rest ih =>
    intro seen
    by_cases h : a ∈ seen
    · rw [firstCodes, if_pos h]; exact ih seen
    · rw [firstCodes, if_neg h]
      refine List.nodup_cons.mpr ⟨?_, ih _⟩
      intro hmem
      exact mem_firstCodes_not_seen rest _ a hmem (List.mem_cons_self _ _)

/-- The spec's `max(0, 1 − min(distance, 1))` coincides with the code's
`1.0 - min(distance, 1.0)` for every distance. -/
theorem relevance_max_eq (d : ℚ) : max 0 (1 - min d 1) = 1 - min d 1 :=
  max_eq_right (by have := min_le_right d (1 : ℚ); linarith)

/-- C8: retrieval never aborts — an empty query or a failed index query
degrades to `[]`; on success each result's relevance score equals
`max(0, 1 − min(distance, 1))` for its hit, only the first occurrence
of each distinct code is kept in rank order, and at most `top_k`
results are returned. -/
theorem C8_standards_retrieval (qi : String → Nat → Except String (List QueryHit))
    (c : Candidate) (k : Nat) :
    (ragQueryString c = "" → find_relevant_standards qi c k = [])
  ∧ (∀ err, qi (ragQueryString c) (k * 2) = Except.error err →
      find_relevant_standards qi c k = [])
  ∧ (∀ hits, ragQueryString c ≠ "" → 0 < k →
      qi (ragQueryString c) (k * 2) = Except.ok hits →
        (find_relevant_standards qi c k).length ≤ k
      ∧ ((find_relevant_standards qi c k).map (fun r => r.code)).Nodup
      ∧ ((find_relevant_standards qi c k).map (fun r => r.code))
          = (firstCodes [] (hits.filterMap (fun h => h.code))).take k
      ∧ (∀ r ∈ find_relevant_standards qi c k,
          ∃ h ∈ hits, h.code = some r.code ∧ r.matched_clause = h.clause
            ∧ r.relevance_score = max 0 (1 - min h.distance 1))) := by
  refine ⟨?_, ?_, ?_⟩
  · intro h
    rw [find_relevant_standards_eq, if_pos h]
  · intro err herr
    rw [find_relevant_standards_eq]
    by_cases hq : ragQueryString c = ""
    · rw [if_pos hq]
    · rw [if_neg hq, herr]
  · intro hits hq hk hok
    have hout : find_relevant_standards qi c k = processHits irc_standards_db k [] 0 hits := by
      rw [find_relevant_standards_eq, if_neg hq, hok]
    have hcodes : (find_relevant_standards qi c k).map (fun r => r.code)
        = (firstCodes [] (hits.filterMap (fun h => h.code))).take k := by
      rw [hout]
      simpa using processHits_codes irc_standards_db k hits [] 0 hk
    refine ⟨?_, ?_, hcodes, ?_⟩
    · have h1 : ((find_relevant_standards qi c k).map (fun r => r.code)).length ≤ k := by
        rw [hcodes]
        exact List.length_take_le _ _
      simpa using h1
    · rw [hcodes]
      exact (List.take_sublist _ _).nodup (firstCodes_nodup _ [])
    · intro r hr
      rw [hout] at hr
      obtain ⟨h, hh, code, hc, rfl⟩ := processHits_mem irc_standards_db k hits [] 0 r hr
      refine ⟨h, hh, ?_, ?_, ?_⟩
      · rw [hc]
        simp [mkStdResult]
      · simp [mkStdResult]
      · rw [relevance_max_eq]
        simp [mkStdResult]

/-- C8 witness: a failing index degrades to `[]`; an empty query yields
`[]`; on the concrete hit list (duplicate code, code-less hit, four
distinct codes) the first three distinct codes are kept in rank order. -/
theorem C8_witness :
    find_relevant_standards c8queryErr c8cand 3 = []
  ∧ find_relevant_standards c8queryOk c8candEmpty 3 = []
  ∧ ((find_relevant_standards c8queryOk c8cand 3).map (fun r => r.code))
      = (firstCodes [] (c8hits.filterMap (fun h => h.code))).take 3
  ∧ (find_relevant_standards c8queryOk c8cand 3).length ≤ 3 := by
  have hA := (C8_standards_retrieval c8queryErr c8cand 3).2.1 ("boom") rfl
  have hB := (C8_standards_retrieval c8queryOk c8candEmpty 3).1 (by with_unfolding_all decide)
  have hC := (C8_standards_retrieval c8queryOk c8cand 3).2.2 c8hits
    (by with_unfolding_all decide) (by norm_num) rfl
  exact ⟨hA, hB, hC.2.2.1, hC.1⟩

/-- C7 witness: with no keywords and no quantities, moving from a
2-word sentence to a 13-word sentence (inside [10, 100]) does not
decrease the score, and the score stays at most 1. -/
theorem C7_witness :
    calculate_confidence ("Install guardrail") [] [] ≤ calculate_confidence c1Text [] []
  ∧ calculate_confidence c1Text [] [] ≤ 1 := by
  constructor
  · exact (C7_confidence_monotone_bounded).2.2.1 ("Install guardrail") c1Text [] []
      (by with_unfolding_all decide) (by with_unfolding_all decide)
  · exact (C7_confidence_monotone_bounded).2.2.2 c1Text [] []
